import Mathlib

/-!
Shallow embedding of the clinical alerting / reconciliation core of the
Diabetes Consultant application:

* `src/rules/__init__.py` — `load_rules`, `get_traffic_light_status`
* `src/app_enhanced.py` — `process_pdf` (conflict detection against the
  form snapshot) and `render_conflict_chip` (user resolution of a conflict)

Python dictionaries are embedded as association lists in insertion order
(`List (String × α)`); a genuine Python dict has no duplicate keys, which
appears as a `Nodup` hypothesis where a theorem needs it.  Python scalar
values are embedded as `Value`, with Python truthiness, `==`/`!=` and `<=`
semantics made explicit (`<=` is partial: comparing a string with a number
raises `TypeError`, embedded as `Except.error`).
-/

/-- Python scalar values that flow through the form snapshot, the extracted
lab mapping and the threshold catalog: ints/floats (as `ℚ`), the float
specials `nan` and `inf` (`float('inf')` is the default threshold bound),
strings, booleans and `None`. -/
inductive Value where
  | num (q : ℚ)
  | nan
  | inf
  | str (s : String)
  | bool (b : Bool)
  | none
  deriving DecidableEq, Repr

/-- One entry of the mapping produced by the external PDF extraction
collaborator: `{value, unit}`, where the `unit` key may be absent
(`result.get('unit', '')` defaults it to the empty string). -/
structure LabResult where
  value : Value
  unit : Option String
  deriving DecidableEq, Repr

/-- Python dict lookup `d.get(k)` / `d[k]` on an insertion-ordered
association list (first binding wins; unique on a real dict). -/
def dictGet {α : Type} (d : List (String × α)) (k : String) : Option α :=
  match d with
  | [] => Option.none
  | (k', v) :: rest => if k' = k then some v else dictGet rest k

/-- Python dict assignment `d[k] = v`: overwrite in place if the key is
bound, otherwise append at the end (insertion order). -/
def dictSet {α : Type} (d : List (String × α)) (k : String) (v : α) :
    List (String × α) :=
  match d with
  | [] => [(k, v)]
  | (k', v') :: rest =>
      if k' = k then (k, v) :: rest else (k', v') :: dictSet rest k v

/-- Classification of a Python value as float-like for comparison purposes:
ints, floats (including booleans, which coerce) and the specials. -/
inductive FloatLike where
  | fin (q : ℚ)
  | pinf
  | nan
  deriving DecidableEq, Repr

/-- Which `Value`s behave as numbers under Python comparison operators. -/
def asFloatLike : Value → Option FloatLike
  | Value.num q => some (FloatLike.fin q)
  | Value.nan => some FloatLike.nan
  | Value.inf => some FloatLike.pinf
  | Value.bool b => some (FloatLike.fin (if b then 1 else 0))
  | Value.str _ => Option.none
  | Value.none => Option.none

/-- IEEE `<=` on float-like values: any comparison with `nan` is false. -/
def fleLe : FloatLike → FloatLike → Bool
  | FloatLike.nan, _ => false
  | _, FloatLike.nan => false
  | FloatLike.fin a, FloatLike.fin b => decide (a ≤ b)
  | FloatLike.fin _, FloatLike.pinf => true
  | FloatLike.pinf, FloatLike.fin _ => false
  | FloatLike.pinf, FloatLike.pinf => true

/-- IEEE `==` on float-like values: `nan` is equal to nothing. -/
def fleEq : FloatLike → FloatLike → Bool
  | FloatLike.nan, _ => false
  | _, FloatLike.nan => false
  | FloatLike.fin a, FloatLike.fin b => decide (a = b)
  | FloatLike.fin _, FloatLike.pinf => false
  | FloatLike.pinf, FloatLike.fin _ => false
  | FloatLike.pinf, FloatLike.pinf => true

/-- Python `a <= b` on scalar values: numeric kinds compare numerically
(booleans coerce), strings compare with strings, and any other mix —
in particular a string against a number, or `None` against anything —
raises `TypeError` (`Except.error ()`). -/
def pyLe (a b : Value) : Except Unit Bool :=
  match asFloatLike a, asFloatLike b with
  | some x, some y => Except.ok (fleLe x y)
  | _, _ =>
      match a, b with
      | Value.str s, Value.str t => Except.ok (decide (s ≤ t))
      | _, _ => Except.error ()

/-- Python `a == b` on scalar values (total, never raises): numeric kinds
compare numerically, `nan` equals nothing, strings compare with strings,
`None == None`, and cross-type comparisons are `False`. -/
def pyEq (a b : Value) : Bool :=
  match asFloatLike a, asFloatLike b with
  | some x, some y => fleEq x y
  | _, _ =>
      match a, b with
      | Value.str s, Value.str t => decide (s = t)
      | Value.none, Value.none => true
      | _, _ => false

/-- Python truthiness of a scalar value: `0`, `0.0`, `''`, `False` and
`None` are falsy; everything else (including `nan`) is truthy. -/
def pyTruthy : Value → Bool
  | Value.num q => decide (q ≠ 0)
  | Value.nan => true
  | Value.inf => true
  | Value.str s => decide (s ≠ "")
  | Value.bool b => b
  | Value.none => false

/-- The conflict record built in `process_pdf`, as the literal Python dict
`{'form_value': ..., 'pdf_value': ..., 'unit': ...}` (note: no
`resolution` key is ever stored). -/
def mkConflict (form_value pdf_value : Value) (unit : String) :
    List (String × Value) :=
  [("form_value", form_value), ("pdf_value", pdf_value),
   ("unit", Value.str unit)]

/-- A conflict entry: the field name maps to its conflict dict. -/
abbrev ConflictDict := List (String × List (String × Value))

/-- One iteration of the conflict-detection loop of `process_pdf`
(src/app_enhanced.py lines 80–87): read the form value for the test
(`patient_data.get(test_name)`, `None` when absent) and record a
conflict exactly when that value is truthy and `!=` the PDF value. -/
def detectStep (patient_data : List (String × Value))
    (conflicts : ConflictDict) (entry : String × LabResult) : ConflictDict :=
  if pyTruthy ((dictGet patient_data entry.1).getD Value.none) &&
      !(pyEq ((dictGet patient_data entry.1).getD Value.none)
        entry.2.value) then
    dictSet conflicts entry.1
      (mkConflict ((dictGet patient_data entry.1).getD Value.none)
        entry.2.value (entry.2.unit.getD ""))
  else conflicts

/-- The conflict-detection loop of `process_pdf` (src/app_enhanced.py
lines 79–87): starting from the empty dict, fold `detectStep` over the
extracted lab mapping in iteration order. -/
def detectConflicts (patient_data : List (String × Value))
    (lab_data : List (String × LabResult)) : ConflictDict :=
  lab_data.foldl (detectStep patient_data) []

/-- The per-session mutable state touched by the reconciliation code:
`st.session_state.patient_data` (the form snapshot, which is also the
authoritative snapshot fed to the rule engine), `lab_data` (the raw
extraction) and `conflicts`. -/
structure SessionState where
  patient_data : List (String × Value)
  lab_data : List (String × LabResult)
  conflicts : ConflictDict
  deriving DecidableEq, Repr

/-- State effect of `process_pdf` (src/app_enhanced.py lines 67–98) once
the external extraction collaborator has produced `lab_data`: store the
extraction, rebuild the conflict dict from scratch, and leave
`patient_data` untouched. -/
def process_pdf (s : SessionState) (lab_data : List (String × LabResult)) :
    SessionState :=
  { patient_data := s.patient_data
    lab_data := lab_data
    conflicts := detectConflicts s.patient_data lab_data }

/-- State effect of `render_conflict_chip` (src/app_enhanced.py lines
100–120) for a chosen radio value: only the choice `"Use PDF value"`
writes, setting `patient_data[test_name] = conflict['pdf_value']`; the
conflict dict itself is never modified. -/
def render_conflict_chip (s : SessionState) (test_name : String)
    (conflict : List (String × Value)) (resolution : String) :
    SessionState :=
  if resolution = "Use PDF value" then
    { s with
      patient_data := dictSet s.patient_data test_name
        ((dictGet conflict "pdf_value").getD Value.none) }
  else s

/-- The parsed shape of `rules.json` that the classifier navigates:
`rules.get('traffic', {})` maps each metric name to its threshold dict
(holding optional `green_max` / `amber_max` entries, and possibly other
keys such as a direction tag). -/
structure Rules where
  traffic : List (String × List (String × Value))
  deriving DecidableEq, Repr

/-- `get_traffic_light_status` (src/rules/__init__.py lines 15–31):
unknown metric → `'amber'` (the code's declared default); otherwise
`value <= thresholds.get('green_max', float('inf'))` → `'green'`, else
`value <= thresholds.get('amber_max', float('inf'))` → `'amber'`, else
`'red'`.  A Python `TypeError` from an incomparable value propagates as
`Except.error`. -/
def get_traffic_light_status (metric_name : String) (value : Value)
    (rules : Rules) : Except Unit String :=
  match dictGet rules.traffic metric_name with
  | Option.none => Except.ok "amber"
  | some thresholds =>
      match pyLe value ((dictGet thresholds "green_max").getD Value.inf) with
      | Except.error e => Except.error e
      | Except.ok true => Except.ok "green"
      | Except.ok false =>
          match pyLe value
              ((dictGet thresholds "amber_max").getD Value.inf) with
          | Except.error e => Except.error e
          | Except.ok true => Except.ok "amber"
          | Except.ok false => Except.ok "red"

/-- `load_rules` (src/rules/__init__.py lines 8–13) after the external
file read and `json.load` have produced a parsed document: the function
returns it as-is, performing no validation of any kind. -/
def load_rules (parsed : Rules) : Except String Rules :=
  Except.ok parsed

/-- Modelled from the spec: the spec's notion of a malformed threshold
catalog ("missing required threshold keys, non-numeric bounds, or
green_max > amber_max"), which the spec says `load` must reject with
`ConfigError`.  Stated as a decidable check so a concrete catalog can be
certified malformed. -/
def spec_malformed (rules : Rules) : Bool :=
  rules.traffic.any fun entry =>
    match dictGet entry.2 "green_max", dictGet entry.2 "amber_max" with
    | Option.none, _ => true
    | _, Option.none => true
    | some (Value.num g), some (Value.num a) => decide (a < g)
    | some (Value.num _), some _ => true
    | some _, some _ => true

/-- Decidable side condition for totality of the classifier: every metric
in the catalog has float-like (or defaulted-to-infinity) `green_max` and
`amber_max` bounds, so the two comparisons the classifier performs cannot
raise on a numeric value. -/
def thresholds_floatlike (rules : Rules) : Bool :=
  rules.traffic.all fun entry =>
    (asFloatLike ((dictGet entry.2 "green_max").getD Value.inf)).isSome &&
      (asFloatLike ((dictGet entry.2 "amber_max").getD Value.inf)).isSome

/-- A concrete threshold catalog used by concrete instantiations: the
spec's example metric, `green_max = 7.0`, `amber_max = 9.0`, declared
"higher_is_worse". -/
def hba1cRules : Rules :=
  ⟨[("hba1c",
     [("green_max", Value.num 7), ("amber_max", Value.num 9),
      ("direction", Value.str "higher_is_worse")])]⟩

/-- A concrete malformed catalog in the spec's sense: `green_max = 10`
exceeds `amber_max = 5`. -/
def malformedRules : Rules :=
  ⟨[("hba1c", [("green_max", Value.num 10), ("amber_max", Value.num 5)])]⟩

/-- Concrete session state after merging form HbA1c 8.2 with a document
reporting HbA1c 9.4 % (the spec's end-to-end example). -/
def exampleMerged : SessionState :=
  process_pdf ⟨[("hba1c", Value.num (mkRat 41 5))], [], []⟩
    [("hba1c", ⟨Value.num (mkRat 47 5), some "%"⟩)]

/-- The conflict record produced by that merge. -/
def exampleConflict : List (String × Value) :=
  mkConflict (Value.num (mkRat 41 5)) (Value.num (mkRat 47 5)) "%"

/-- The state after resolving that conflict to the PDF value. -/
def exampleResolved : SessionState :=
  render_conflict_chip exampleMerged "hba1c" exampleConflict
    "Use PDF value"

/-! Dictionary lemmas -/


theorem dictGet_dictSet_self {α : Type} (d : List (String × α)) (k : String)
    (v : α) : dictGet (dictSet d k v) k = some v := by
  induction d with
  | nil => simp [dictGet, dictSet]
  | cons p rest ih =>
      obtain ⟨pk, pv⟩ := p
      by_cases h : pk = k
      · simp [dictSet, h, dictGet]
      · simp [dictSet, h, dictGet, ih]

theorem dictGet_dictSet_ne {α : Type} (d : List (String × α))
    (k k' : String) (v : α) (h : k' ≠ k) :
    dictGet (dictSet d k v) k' = dictGet d k' := by
  have hk : ¬(k = k') := fun hh => h hh.symm
  induction d with
  | nil => simp [dictGet, dictSet, hk]
  | cons p rest ih =>
      obtain ⟨pk, pv⟩ := p
      by_cases hp : pk = k
      · subst hp
        simp [dictSet, dictGet, hk]
      · simp [dictSet, hp, dictGet, ih]

theorem dictSet_dictSet_self {α : Type} (d : List (String × α))
    (k : String) (v : α) : dictSet (dictSet d k v) k v = dictSet d k v := by
  induction d with
  | nil => simp [dictSet]
  | cons p rest ih =>
      obtain ⟨pk, pv⟩ := p
      by_cases h : pk = k
      · simp [dictSet, h]
      · simp [dictSet, h, ih]

theorem keys_dictSet {α : Type} (d : List (String × α)) (k : String)
    (v : α) :
    (dictSet d k v).map Prod.fst = d.map Prod.fst ∨
      (dictSet d k v).map Prod.fst = d.map Prod.fst ++ [k] := by
  induction d with
  | nil => right; simp [dictSet]
  | cons p rest ih =>
      obtain ⟨pk, pv⟩ := p
      by_cases h : pk = k
      · left; simp [dictSet, h]
      · rcases ih with ih | ih
        · left; simp [dictSet, h, ih]
        · right; simp [dictSet, h, ih]

theorem nodup_keys_dictSet {α : Type} (d : List (String × α)) (k : String)
    (v : α) (hd : (d.map Prod.fst).Nodup) (hk : k ∉ d.map Prod.fst) :
    ((dictSet d k v).map Prod.fst).Nodup := by
  rcases keys_dictSet d k v with h | h
  · rw [h]; exact hd
  · rw [h]
    rw [List.nodup_append]
    refine ⟨hd, by simp, ?_⟩
    intro a ha hb
    simp only [List.mem_singleton] at hb
    subst hb
    exact hk ha

theorem mem_keys_of_dictGet {α : Type} (d : List (String × α))
    (k : String) (v : α) (h : dictGet d k = some v) :
    k ∈ d.map Prod.fst := by
  induction d with
  | nil => simp [dictGet] at h
  | cons p rest ih =>
      obtain ⟨pk, pv⟩ := p
      by_cases hk : pk = k
      · simp [hk]
      · simp only [dictGet, hk, if_false] at h
        simp [ih h]

theorem dictGet_eq_of_mem {α : Type} (d : List (String × α))
    (k : String) (v : α) (hnd : (d.map Prod.fst).Nodup) (h : (k, v) ∈ d) :
    dictGet d k = some v := by
  induction d with
  | nil => simp at h
  | cons p rest ih =>
      obtain ⟨pk, pv⟩ := p
      simp only [List.mem_cons] at h
      simp only [List.map_cons, List.nodup_cons] at hnd
      rcases h with h | h
      · rw [Prod.mk.injEq] at h
        simp [dictGet, h.1, h.2]
      · have hk : pk ≠ k := by
          intro he
          subst he
          exact hnd.1 (List.mem_map_of_mem Prod.fst h)
        simp [dictGet, hk, ih hnd.2 h]

/-! Conflict-detection loop lemmas -/

theorem detect_foldl_not_mem (pd : List (String × Value))
    (lab : List (String × LabResult)) (acc : ConflictDict) (f : String)
    (hf : f ∉ lab.map Prod.fst) :
    dictGet (lab.foldl (detectStep pd) acc) f = dictGet acc f := by
  induction lab generalizing acc with
  | nil => rfl
  | cons e rest ih =>
      simp only [List.map_cons, List.mem_cons, not_or] at hf
      rw [List.foldl_cons, ih _ hf.2]
      unfold detectStep
      split
      · exact dictGet_dictSet_ne _ _ _ _ hf.1
      · rfl

theorem detect_foldl_mem (pd : List (String × Value))
    (lab : List (String × LabResult)) (acc : ConflictDict) (f : String)
    (r : LabResult) (hnd : (lab.map Prod.fst).Nodup) (hmem : (f, r) ∈ lab)
    (hq : pyTruthy ((dictGet pd f).getD Value.none) = true)
    (hne : pyEq ((dictGet pd f).getD Value.none) r.value = false) :
    dictGet (lab.foldl (detectStep pd) acc) f =
      some (mkConflict ((dictGet pd f).getD Value.none) r.value
        (r.unit.getD "")) := by
  induction lab generalizing acc with
  | nil => simp at hmem
  | cons e rest ih =>
      simp only [List.map_cons, List.nodup_cons] at hnd
      simp only [List.mem_cons] at hmem
      rw [List.foldl_cons]
      rcases hmem with he | hmem
      · subst he
        have hrest : f ∉ rest.map Prod.fst := hnd.1
        rw [detect_foldl_not_mem pd rest _ f hrest]
        unfold detectStep
        simp only [hq, hne, Bool.not_false, Bool.and_self, if_true]
        exact dictGet_dictSet_self _ _ _
      · exact ih (detectStep pd acc e) hnd.2 hmem

theorem detect_foldl_falsy (pd : List (String × Value))
    (lab : List (String × LabResult)) (acc : ConflictDict) (f : String)
    (hq : pyTruthy ((dictGet pd f).getD Value.none) = false) :
    dictGet (lab.foldl (detectStep pd) acc) f = dictGet acc f := by
  induction lab generalizing acc with
  | nil => rfl
  | cons e rest ih =>
      rw [List.foldl_cons, ih]
      unfold detectStep
      split
      · rename_i hcond
        by_cases he : e.1 = f
        · rw [he, hq] at hcond
          simp at hcond
        · exact dictGet_dictSet_ne _ _ _ _ (fun hh => he hh.symm)
      · rfl

theorem detect_foldl_some (pd : List (String × Value))
    (lab : List (String × LabResult)) (acc : ConflictDict) (f : String)
    (c : List (String × Value))
    (h : dictGet (lab.foldl (detectStep pd) acc) f = some c) :
    dictGet acc f = some c ∨
      ∃ r : LabResult, (f, r) ∈ lab ∧
        pyTruthy ((dictGet pd f).getD Value.none) = true ∧
        pyEq ((dictGet pd f).getD Value.none) r.value = false ∧
        c = mkConflict ((dictGet pd f).getD Value.none) r.value
          (r.unit.getD "") := by
  induction lab generalizing acc with
  | nil => exact Or.inl h
  | cons e rest ih =>
      rw [List.foldl_cons] at h
      rcases ih (detectStep pd acc e) h with hacc | ⟨r, hr, hq, hne, hc⟩
      · unfold detectStep at hacc
        by_cases he : e.1 = f
        · subst he
          split at hacc
          · rename_i hcond
            rw [dictGet_dictSet_self] at hacc
            simp only [Bool.and_eq_true, Bool.not_eq_true'] at hcond
            right
            refine ⟨e.2, ?_, hcond.1, hcond.2, ?_⟩
            · exact List.mem_cons_self e rest
            · exact (Option.some.injEq _ _ ▸ hacc).symm
          · exact Or.inl hacc
        · split at hacc
          · rw [dictGet_dictSet_ne _ _ _ _ (fun hh => he hh.symm)] at hacc
            exact Or.inl hacc
          · exact Or.inl hacc
      · exact Or.inr ⟨r, List.mem_cons_of_mem e hr, hq, hne, hc⟩

theorem detect_foldl_agree (pd : List (String × Value))
    (lab : List (String × LabResult)) (acc : ConflictDict)
    (hagree : ∀ p : String × LabResult, p ∈ lab →
      (pyTruthy ((dictGet pd p.1).getD Value.none) = false ∨
        pyEq ((dictGet pd p.1).getD Value.none) p.2.value = true)) :
    lab.foldl (detectStep pd) acc = acc := by
  induction lab generalizing acc with
  | nil => rfl
  | cons e rest ih =>
      rw [List.foldl_cons]
      have he := hagree e (List.mem_cons_self e rest)
      have hstep : detectStep pd acc e = acc := by
        unfold detectStep
        rcases he with he | he <;> simp [he]
      rw [hstep]
      exact ih _ (fun p hp => hagree p (List.mem_cons_of_mem e hp))

theorem detect_foldl_nodup_keys (pd : List (String × Value))
    (lab : List (String × LabResult)) (acc : ConflictDict)
    (hacc : (acc.map Prod.fst).Nodup)
    (hsub : ∀ k, k ∈ acc.map Prod.fst → k ∈ lab.map Prod.fst → False)
    (hnd : (lab.map Prod.fst).Nodup) :
    ((lab.foldl (detectStep pd) acc).map Prod.fst).Nodup := by
  induction lab generalizing acc with
  | nil => exact hacc
  | cons e rest ih =>
      simp only [List.map_cons, List.nodup_cons] at hnd
      rw [List.foldl_cons]
      apply ih (detectStep pd acc e) ?_ ?_ hnd.2
      · unfold detectStep
        split
        · apply nodup_keys_dictSet _ _ _ hacc
          intro hmem
          exact hsub e.1 hmem (by simp)
        · exact hacc
      · intro k hk hkrest
        unfold detectStep at hk
        rcases ne_or_eq k e.1 with hke | hke
        · have hkacc : k ∈ acc.map Prod.fst := by
            split at hk
            · rcases keys_dictSet acc e.1 (mkConflict
                  ((dictGet pd e.1).getD Value.none) e.2.value
                  (e.2.unit.getD "")) with hks | hks
              · rw [hks] at hk
                exact hk
              · rw [hks] at hk
                simp only [List.mem_append, List.mem_singleton] at hk
                rcases hk with hk | hk
                · exact hk
                · exact absurd hk hke
            · exact hk
          exact hsub k hkacc (by simp [hkrest])
        · subst hke
          exact hnd.1 hkrest

/-! Classifier lemmas -/

theorem pyLe_ok (a b : Value) (x y : FloatLike) (ha : asFloatLike a = some x)
    (hb : asFloatLike b = some y) : pyLe a b = Except.ok (fleLe x y) := by
  unfold pyLe
  rw [ha, hb]

theorem pyLe_num_num (x y : ℚ) :
    pyLe (Value.num x) (Value.num y) = Except.ok (decide (x ≤ y)) := rfl

theorem fleLe_nan_left (y : FloatLike) : fleLe FloatLike.nan y = false := by
  cases y <;> rfl

theorem gtls_known (metric_name : String) (value : Value) (rules : Rules)
    (td : List (String × Value))
    (h : dictGet rules.traffic metric_name = some td) :
    get_traffic_light_status metric_name value rules =
      match pyLe value ((dictGet td "green_max").getD Value.inf) with
      | Except.error e => Except.error e
      | Except.ok true => Except.ok "green"
      | Except.ok false =>
          match pyLe value ((dictGet td "amber_max").getD Value.inf) with
          | Except.error e => Except.error e
          | Except.ok true => Except.ok "amber"
          | Except.ok false => Except.ok "red" := by
  unfold get_traffic_light_status
  rw [h]

theorem gtls_unknown (metric_name : String) (value : Value) (rules : Rules)
    (h : dictGet rules.traffic metric_name = Option.none) :
    get_traffic_light_status metric_name value rules = Except.ok "amber" := by
  unfold get_traffic_light_status
  rw [h]

theorem mem_of_dictGet {α : Type} (d : List (String × α)) (k : String)
    (v : α) (h : dictGet d k = some v) : (k, v) ∈ d := by
  induction d with
  | nil => simp [dictGet] at h
  | cons p rest ih =>
      obtain ⟨pk, pv⟩ := p
      by_cases hk : pk = k
      · subst hk
        simp [dictGet] at h
        subst h
        exact List.mem_cons_self _ _
      · simp only [dictGet, hk, if_false] at h
        exact List.mem_cons_of_mem _ (ih h)

/-! Claims about the traffic-light classifier and the catalog loader -/

/-- C2 (amended): for every metric name with no entry in the threshold
catalog, `get_traffic_light_status` returns `'amber'` — the code's
documented default for unknown metrics — for every value, and does not
raise.  (The spec's claim that it returns `'unknown'` is refuted by
`C2_counterexample_amber_not_unknown`.) -/
theorem C2_unknown_metric_returns_amber (metric_name : String)
    (value : Value) (rules : Rules)
    (h : dictGet rules.traffic metric_name = Option.none) :
    get_traffic_light_status metric_name value rules = Except.ok "amber" :=
  gtls_unknown metric_name value rules h

/-- C2 witness: the catalog defining only `hba1c` classifies the unknown
metric `serum_rhubarb` as `'amber'`. -/
theorem C2_unknown_metric_returns_amber_witness :
    dictGet hba1cRules.traffic "serum_rhubarb" = Option.none ∧
    get_traffic_light_status "serum_rhubarb" (Value.num 5) hba1cRules =
      Except.ok "amber" :=
  ⟨rfl, C2_unknown_metric_returns_amber "serum_rhubarb" (Value.num 5)
    hba1cRules rfl⟩

/-- C2 counterexample: classifying an unknown metric yields `'amber'`,
not the `'unknown'` the spec requires. -/
theorem C2_counterexample_amber_not_unknown :
    get_traffic_light_status "serum_rhubarb" (Value.num 5) hba1cRules =
      Except.ok "amber" ∧
    (Except.ok "amber" : Except Unit String) ≠ Except.ok "unknown" :=
  ⟨rfl, fun h => absurd (Except.ok.inj h) (by decide)⟩

/-- C3 (amended): the classifier never returns `'unknown'` (its only
success values are `'green'`, `'amber'`, `'red'`); it is total on
float-like values when the catalog's bounds are float-like, and a `nan`
value for a cataloged metric classifies as `'red'` (both threshold
comparisons are false).  It is not total in general: a non-numeric value
compared against a numeric bound raises `TypeError`
(`C3_counterexample_typeerror`). -/
theorem C3_classifier_never_unknown (metric_name : String) (value : Value)
    (rules : Rules) :
    (∀ s, get_traffic_light_status metric_name value rules = Except.ok s →
      s = "green" ∨ s = "amber" ∨ s = "red") ∧
    (thresholds_floatlike rules = true → (asFloatLike value).isSome = true →
      ∃ s, get_traffic_light_status metric_name value rules =
        Except.ok s) ∧
    (value = Value.nan →
      ∀ td, dictGet rules.traffic metric_name = some td →
        thresholds_floatlike rules = true →
        get_traffic_light_status metric_name value rules =
          Except.ok "red") := by
  refine ⟨?_, ?_, ?_⟩
  · intro s h
    unfold get_traffic_light_status at h
    split at h
    · exact Or.inr (Or.inl (Except.ok.inj h).symm)
    · split at h
      · exact Except.noConfusion h
      · exact Or.inl (Except.ok.inj h).symm
      · split at h
        · exact Except.noConfusion h
        · exact Or.inr (Or.inl (Except.ok.inj h).symm)
        · exact Or.inr (Or.inr (Except.ok.inj h).symm)
  · intro hth hv
    rcases hm : dictGet rules.traffic metric_name with _ | td
    · exact ⟨"amber", gtls_unknown _ _ _ hm⟩
    · have hmem : (metric_name, td) ∈ rules.traffic := mem_of_dictGet _ _ _ hm
      have hall := List.all_eq_true.mp hth _ hmem
      simp only [Bool.and_eq_true, Option.isSome_iff_exists] at hall hv
      obtain ⟨⟨y, hy⟩, z, hz⟩ := hall
      obtain ⟨x, hx⟩ := hv
      rw [gtls_known _ _ _ _ hm, pyLe_ok _ _ _ _ hx hy]
      cases fleLe x y
      · rw [pyLe_ok _ _ _ _ hx hz]
        cases fleLe x z
        · exact ⟨"red", rfl⟩
        · exact ⟨"amber", rfl⟩
      · exact ⟨"green", rfl⟩
  · rintro rfl td hm hth
    have hmem : (metric_name, td) ∈ rules.traffic := mem_of_dictGet _ _ _ hm
    have hall := List.all_eq_true.mp hth _ hmem
    simp only [Bool.and_eq_true, Option.isSome_iff_exists] at hall
    obtain ⟨⟨y, hy⟩, z, hz⟩ := hall
    rw [gtls_known _ _ _ _ hm, pyLe_ok Value.nan _ FloatLike.nan _ rfl hy,
      fleLe_nan_left, pyLe_ok Value.nan _ FloatLike.nan _ rfl hz,
      fleLe_nan_left]

/-- C3 counterexample: classifying a string value against numeric bounds
raises `TypeError` (the classifier is not total and does not return
`'unknown'`). -/
theorem C3_counterexample_typeerror :
    get_traffic_light_status "hba1c" (Value.str "pending") hba1cRules =
      Except.error () ∧
    (Except.error () : Except Unit String) ≠ Except.ok "unknown" :=
  ⟨rfl, fun h => Except.noConfusion h⟩

/-- C4: for a cataloged metric tagged "higher_is_worse" with numeric
bounds `green_max = g ≤ amber_max = a`, a numeric value `v` classifies
green when `v ≤ g`, amber when `g < v ≤ a`, and red when `a < v`. -/
theorem C4_higher_is_worse_bands (rules : Rules) (metric_name : String)
    (td : List (String × Value)) (g a : ℚ)
    (hm : dictGet rules.traffic metric_name = some td)
    (hg : dictGet td "green_max" = some (Value.num g))
    (ha : dictGet td "amber_max" = some (Value.num a))
    (hdir : dictGet td "direction" = some (Value.str "higher_is_worse"))
    (hga : g ≤ a) (v : ℚ) :
    (v ≤ g →
      get_traffic_light_status metric_name (Value.num v) rules =
        Except.ok "green") ∧
    (g < v → v ≤ a →
      get_traffic_light_status metric_name (Value.num v) rules =
        Except.ok "amber") ∧
    (a < v →
      get_traffic_light_status metric_name (Value.num v) rules =
        Except.ok "red") := by
  have hrw := gtls_known metric_name (Value.num v) rules td hm
  rw [hg, ha] at hrw
  simp only [Option.getD_some] at hrw
  rw [pyLe_num_num, pyLe_num_num] at hrw
  refine ⟨?_, ?_, ?_⟩
  · intro hvg
    rw [hrw, decide_eq_true hvg]
  · intro hgv hva
    rw [hrw, decide_eq_false (not_le.mpr hgv), decide_eq_true hva]
  · intro hav
    rw [hrw, decide_eq_false (not_le.mpr (lt_of_le_of_lt hga hav)),
      decide_eq_false (not_le.mpr hav)]

/-- C4 witness: the spec's example bands — green_max 7.0, amber_max 9.0,
direction "higher_is_worse" — classify 6.9 and 7.0 green, 8.5 amber and
9.1 red. -/
theorem C4_higher_is_worse_bands_witness :
    get_traffic_light_status "hba1c" (Value.num (mkRat 69 10)) hba1cRules =
      Except.ok "green" ∧
    get_traffic_light_status "hba1c" (Value.num 7) hba1cRules =
      Except.ok "green" ∧
    get_traffic_light_status "hba1c" (Value.num (mkRat 85 10)) hba1cRules =
      Except.ok "amber" ∧
    get_traffic_light_status "hba1c" (Value.num (mkRat 91 10)) hba1cRules =
      Except.ok "red" :=
  ⟨(C4_higher_is_worse_bands hba1cRules "hba1c" _ 7 9 rfl rfl rfl rfl
      (by decide) (mkRat 69 10)).1 (by decide),
   (C4_higher_is_worse_bands hba1cRules "hba1c" _ 7 9 rfl rfl rfl rfl
      (by decide) 7).1 (by decide),
   (C4_higher_is_worse_bands hba1cRules "hba1c" _ 7 9 rfl rfl rfl rfl
      (by decide) (mkRat 85 10)).2.1 (by decide) (by decide),
   (C4_higher_is_worse_bands hba1cRules "hba1c" _ 7 9 rfl rfl rfl rfl
      (by decide) (mkRat 91 10)).2.2 (by decide)⟩

/-- C9 (amended): `load_rules` performs no validation at all — any parsed
catalog, even one the spec calls malformed (missing threshold keys,
non-numeric bounds, or green_max > amber_max), is returned unchanged and
no `ConfigError` is raised. -/
theorem C9_load_rules_no_validation (parsed : Rules)
    (hmal : spec_malformed parsed = true) :
    load_rules parsed = Except.ok parsed := rfl

/-- C9 witness: the concrete catalog with green_max 10 > amber_max 5 is
malformed in the spec's sense yet loads successfully. -/
theorem C9_load_rules_no_validation_witness :
    spec_malformed malformedRules = true ∧
    load_rules malformedRules = Except.ok malformedRules :=
  ⟨by decide, C9_load_rules_no_validation malformedRules (by decide)⟩

/-- C9 counterexample: a catalog with green_max 10 > amber_max 5 — which
the spec says must fail with `ConfigError` — loads without any error. -/
theorem C9_counterexample_malformed_loads :
    spec_malformed malformedRules = true ∧
    load_rules malformedRules = Except.ok malformedRules ∧
    (∀ e : String, load_rules malformedRules ≠ Except.error e) :=
  ⟨by decide, rfl, fun _ h => Except.noConfusion h⟩

/-! Claims about the reconciliation engine -/

theorem conflicts_get_of_disagreement (s : SessionState)
    (lab : List (String × LabResult)) (f : String) (r : LabResult)
    (fv : Value) (hnd : (lab.map Prod.fst).Nodup) (hmem : (f, r) ∈ lab)
    (hform : dictGet s.patient_data f = some fv)
    (htru : pyTruthy fv = true) (hne : pyEq fv r.value = false) :
    dictGet (process_pdf s lab).conflicts f =
      some (mkConflict fv r.value (r.unit.getD "")) := by
  have hfv : (dictGet s.patient_data f).getD Value.none = fv := by
    rw [hform]
    rfl
  have htru2 : pyTruthy ((dictGet s.patient_data f).getD Value.none) =
      true := by
    rw [hfv]; exact htru
  have hne2 : pyEq ((dictGet s.patient_data f).getD Value.none) r.value =
      false := by
    rw [hfv]; exact hne
  show dictGet (detectConflicts s.patient_data lab) f = _
  unfold detectConflicts
  rw [detect_foldl_mem s.patient_data lab [] f r hnd hmem htru2 hne2, hfv]

/-- C1 (amended): for every field present in both sources whose form
value is truthy and differs (Python `!=`) from the document value,
exactly one Conflict — keyed by field name, holding the form value, the
document value and the unit — exists after `process_pdf`; but the merged
snapshot is the unchanged form snapshot and still contains the form
value for that field, rather than being absent/sentinel as the spec
requires (refuted concretely by
`C1_counterexample_snapshot_retains_form_value`). -/
theorem C1_exactly_one_conflict_but_form_value_retained
    (s : SessionState) (lab : List (String × LabResult)) (f : String)
    (r : LabResult) (fv : Value)
    (hnd : (lab.map Prod.fst).Nodup) (hmem : (f, r) ∈ lab)
    (hform : dictGet s.patient_data f = some fv)
    (htru : pyTruthy fv = true) (hne : pyEq fv r.value = false) :
    ((process_pdf s lab).conflicts.map Prod.fst).count f = 1 ∧
    dictGet (process_pdf s lab).conflicts f =
      some (mkConflict fv r.value (r.unit.getD "")) ∧
    dictGet (process_pdf s lab).patient_data f = some fv := by
  have hget := conflicts_get_of_disagreement s lab f r fv hnd hmem hform
    htru hne
  have hnodup : ((process_pdf s lab).conflicts.map Prod.fst).Nodup := by
    show ((detectConflicts s.patient_data lab).map Prod.fst).Nodup
    unfold detectConflicts
    exact detect_foldl_nodup_keys s.patient_data lab [] (by simp)
      (by simp) hnd
  exact ⟨List.count_eq_one_of_mem hnodup (mem_keys_of_dictGet _ _ _ hget),
    hget, hform⟩

/-- C1 witness: form HbA1c 8.2 vs document HbA1c 9.4 (unit %): exactly
one conflict, holding both values, and the snapshot still holds 8.2. -/
theorem C1_exactly_one_conflict_witness :
    ((process_pdf ⟨[("hba1c", Value.num (mkRat 41 5))], [], []⟩
        [("hba1c", ⟨Value.num (mkRat 47 5), some "%"⟩)]).conflicts.map
          Prod.fst).count "hba1c" = 1 ∧
    dictGet (process_pdf ⟨[("hba1c", Value.num (mkRat 41 5))], [], []⟩
        [("hba1c", ⟨Value.num (mkRat 47 5), some "%"⟩)]).conflicts
        "hba1c" =
      some (mkConflict (Value.num (mkRat 41 5)) (Value.num (mkRat 47 5))
        "%") ∧
    dictGet (process_pdf ⟨[("hba1c", Value.num (mkRat 41 5))], [], []⟩
        [("hba1c", ⟨Value.num (mkRat 47 5), some "%"⟩)]).patient_data
        "hba1c" =
      some (Value.num (mkRat 41 5)) :=
  C1_exactly_one_conflict_but_form_value_retained
    ⟨[("hba1c", Value.num (mkRat 41 5))], [], []⟩
    [("hba1c", ⟨Value.num (mkRat 47 5), some "%"⟩)] "hba1c"
    ⟨Value.num (mkRat 47 5), some "%"⟩ (Value.num (mkRat 41 5))
    (by decide) (by decide) (by decide) (by decide) (by decide)

/-- C1 counterexample: with form HbA1c 8.2 and document HbA1c 9.4, the
conflict is recorded, yet the merged snapshot still contains the form
value 8.2 for the field — it is not absent/sentinel while the conflict
is unresolved, contrary to the claim. -/
theorem C1_counterexample_snapshot_retains_form_value :
    dictGet (process_pdf ⟨[("hba1c", Value.num (mkRat 41 5))], [], []⟩
        [("hba1c", ⟨Value.num (mkRat 47 5), some "%"⟩)]).conflicts
        "hba1c" =
      some (mkConflict (Value.num (mkRat 41 5)) (Value.num (mkRat 47 5))
        "%") ∧
    dictGet (process_pdf ⟨[("hba1c", Value.num (mkRat 41 5))], [], []⟩
        [("hba1c", ⟨Value.num (mkRat 47 5), some "%"⟩)]).patient_data
        "hba1c" ≠ Option.none ∧
    dictGet (process_pdf ⟨[("hba1c", Value.num (mkRat 41 5))], [], []⟩
        [("hba1c", ⟨Value.num (mkRat 47 5), some "%"⟩)]).patient_data
        "hba1c" = some (Value.num (mkRat 41 5)) :=
  ⟨by decide, fun h => Option.noConfusion h, by decide⟩

/-- C5 (amended): a field present only in the document yields no
Conflict, but its value is NOT adopted into the patient snapshot — it is
stored only in the separate `lab_data` mapping (refuted adoption shown
by `C5_counterexample_document_value_not_adopted`). -/
theorem C5_document_only_field_not_adopted (s : SessionState)
    (lab : List (String × LabResult)) (f : String) (r : LabResult)
    (hnd : (lab.map Prod.fst).Nodup) (hmem : (f, r) ∈ lab)
    (habs : dictGet s.patient_data f = Option.none) :
    dictGet (process_pdf s lab).conflicts f = Option.none ∧
    dictGet (process_pdf s lab).patient_data f = Option.none ∧
    dictGet (process_pdf s lab).lab_data f = some r := by
  have hq : pyTruthy ((dictGet s.patient_data f).getD Value.none) =
      false := by
    rw [habs]
    rfl
  refine ⟨?_, habs, dictGet_eq_of_mem lab f r hnd hmem⟩
  show dictGet (detectConflicts s.patient_data lab) f = Option.none
  unfold detectConflicts
  rw [detect_foldl_falsy s.patient_data lab [] f hq]
  rfl

/-- C5 witness: an empty form with a document HbA1c 9.4: no conflict,
nothing adopted into the snapshot, the value kept in `lab_data`. -/
theorem C5_document_only_field_witness :
    dictGet (process_pdf ⟨[], [], []⟩
        [("hba1c", ⟨Value.num (mkRat 47 5), some "%"⟩)]).conflicts
        "hba1c" = Option.none ∧
    dictGet (process_pdf ⟨[], [], []⟩
        [("hba1c", ⟨Value.num (mkRat 47 5), some "%"⟩)]).patient_data
        "hba1c" = Option.none ∧
    dictGet (process_pdf ⟨[], [], []⟩
        [("hba1c", ⟨Value.num (mkRat 47 5), some "%"⟩)]).lab_data
        "hba1c" = some ⟨Value.num (mkRat 47 5), some "%"⟩ :=
  C5_document_only_field_not_adopted ⟨[], [], []⟩
    [("hba1c", ⟨Value.num (mkRat 47 5), some "%"⟩)] "hba1c"
    ⟨Value.num (mkRat 47 5), some "%"⟩ (by decide) (by decide) (by decide)

/-- C5 counterexample: with an empty form and document HbA1c 9.4, no
conflict is recorded, but the merged snapshot does NOT receive the
document value (the claim says it is adopted directly). -/
theorem C5_counterexample_document_value_not_adopted :
    dictGet (process_pdf ⟨[], [], []⟩
        [("hba1c", ⟨Value.num (mkRat 47 5), some "%"⟩)]).conflicts
        "hba1c" = Option.none ∧
    dictGet (process_pdf ⟨[], [], []⟩
        [("hba1c", ⟨Value.num (mkRat 47 5), some "%"⟩)]).patient_data
        "hba1c" ≠ some (Value.num (mkRat 47 5)) ∧
    dictGet (process_pdf ⟨[], [], []⟩
        [("hba1c", ⟨Value.num (mkRat 47 5), some "%"⟩)]).patient_data
        "hba1c" = Option.none :=
  ⟨rfl, fun h => Option.noConfusion h, rfl⟩

/-- C6 (amended): a later `process_pdf` call rebuilds the conflict dict
from scratch — its result is independent of whatever conflicts (resolved
or not) were stored before, so earlier resolutions cannot suppress a new
disagreement; a field whose current snapshot value is truthy and differs
from the new document value gets a fresh Conflict record.  However that
record carries no `resolution` field at all, so the spec's
`resolution = "unresolved"` state is never represented (refuted by
`C6_counterexample_no_resolution_field`). -/
theorem C6_remerge_rebuilds_conflicts_without_resolution_state
    (s : SessionState) (old : ConflictDict)
    (lab : List (String × LabResult)) (f : String) (r : LabResult)
    (fv : Value) (hnd : (lab.map Prod.fst).Nodup) (hmem : (f, r) ∈ lab)
    (hform : dictGet s.patient_data f = some fv)
    (htru : pyTruthy fv = true) (hne : pyEq fv r.value = false) :
    (process_pdf { s with conflicts := old } lab).conflicts =
      (process_pdf s lab).conflicts ∧
    dictGet (process_pdf s lab).conflicts f =
      some (mkConflict fv r.value (r.unit.getD "")) ∧
    dictGet (mkConflict fv r.value (r.unit.getD "")) "resolution" =
      Option.none := by
  refine ⟨rfl, ?_, rfl⟩
  exact conflicts_get_of_disagreement s lab f r fv hnd hmem hform htru hne

/-- C6 witness: after the HbA1c conflict (8.2 vs 9.4) is resolved to the
PDF value, a re-merge whose document now reports 10.0 disagrees with the
current snapshot value 9.4 and yields a fresh conflict record — with no
resolution field — regardless of the previously stored conflicts. -/
theorem C6_remerge_rebuilds_conflicts_witness :
    (process_pdf
        { render_conflict_chip
            (process_pdf ⟨[("hba1c", Value.num (mkRat 41 5))], [], []⟩
              [("hba1c", ⟨Value.num (mkRat 47 5), some "%"⟩)])
            "hba1c"
            (mkConflict (Value.num (mkRat 41 5)) (Value.num (mkRat 47 5))
              "%")
            "Use PDF value" with
          conflicts := [("hba1c",
            mkConflict (Value.num (mkRat 41 5)) (Value.num (mkRat 47 5))
              "%")] }
        [("hba1c", ⟨Value.num 10, some "%"⟩)]).conflicts =
      (process_pdf
        (render_conflict_chip
          (process_pdf ⟨[("hba1c", Value.num (mkRat 41 5))], [], []⟩
            [("hba1c", ⟨Value.num (mkRat 47 5), some "%"⟩)])
          "hba1c"
          (mkConflict (Value.num (mkRat 41 5)) (Value.num (mkRat 47 5))
            "%")
          "Use PDF value")
        [("hba1c", ⟨Value.num 10, some "%"⟩)]).conflicts ∧
    dictGet (process_pdf
        (render_conflict_chip
          (process_pdf ⟨[("hba1c", Value.num (mkRat 41 5))], [], []⟩
            [("hba1c", ⟨Value.num (mkRat 47 5), some "%"⟩)])
          "hba1c"
          (mkConflict (Value.num (mkRat 41 5)) (Value.num (mkRat 47 5))
            "%")
          "Use PDF value")
        [("hba1c", ⟨Value.num 10, some "%"⟩)]).conflicts "hba1c" =
      some (mkConflict (Value.num (mkRat 47 5)) (Value.num 10) "%") ∧
    dictGet (mkConflict (Value.num (mkRat 47 5)) (Value.num 10) "%")
        "resolution" =
      Option.none :=
  C6_remerge_rebuilds_conflicts_without_resolution_state
    (render_conflict_chip
      (process_pdf ⟨[("hba1c", Value.num (mkRat 41 5))], [], []⟩
        [("hba1c", ⟨Value.num (mkRat 47 5), some "%"⟩)])
      "hba1c"
      (mkConflict (Value.num (mkRat 41 5)) (Value.num (mkRat 47 5)) "%")
      "Use PDF value")
    [("hba1c",
      mkConflict (Value.num (mkRat 41 5)) (Value.num (mkRat 47 5)) "%")]
    [("hba1c", ⟨Value.num 10, some "%"⟩)] "hba1c"
    ⟨Value.num 10, some "%"⟩ (Value.num (mkRat 47 5))
    (by decide) (by decide) (by decide) (by decide) (by decide)

/-- C6 counterexample: the fresh Conflict created by the re-merge after a
resolution holds only form value, document value and unit — looking up
its `resolution` key yields nothing, never `"unresolved"` as the claim
states. -/
theorem C6_counterexample_no_resolution_field :
    dictGet (process_pdf
        (render_conflict_chip
          (process_pdf ⟨[("hba1c", Value.num (mkRat 41 5))], [], []⟩
            [("hba1c", ⟨Value.num (mkRat 47 5), some "%"⟩)])
          "hba1c"
          (mkConflict (Value.num (mkRat 41 5)) (Value.num (mkRat 47 5))
            "%")
          "Use PDF value")
        [("hba1c", ⟨Value.num 10, some "%"⟩)]).conflicts "hba1c" =
      some (mkConflict (Value.num (mkRat 47 5)) (Value.num 10) "%") ∧
    dictGet (mkConflict (Value.num (mkRat 47 5)) (Value.num 10) "%")
        "resolution" ≠ some (Value.str "unresolved") ∧
    dictGet (mkConflict (Value.num (mkRat 47 5)) (Value.num 10) "%")
        "resolution" = Option.none :=
  ⟨by decide, fun h => Option.noConfusion h, rfl⟩

/-- C7 (amended): resolving is idempotent (running the chip twice with
the same choice equals running it once), touches at most the resolved
field (setting it to the PDF value for "Use PDF value", leaving the
state untouched for "Keep form value"), and never duplicates a conflict
— but the Conflict's resolution is NOT recorded anywhere: the session's
conflict dict is left entirely unchanged (refuted recording shown by
`C7_counterexample_resolution_not_recorded`). -/
theorem C7_resolve_idempotent_but_resolution_not_recorded
    (s : SessionState) (test_name : String)
    (conflict : List (String × Value)) (choice : String)
    (hch : choice = "Keep form value" ∨ choice = "Use PDF value") :
    (render_conflict_chip
        (render_conflict_chip s test_name conflict choice)
        test_name conflict choice =
      render_conflict_chip s test_name conflict choice) ∧
    ((render_conflict_chip s test_name conflict choice).conflicts =
      s.conflicts) ∧
    ((render_conflict_chip s test_name conflict choice).lab_data =
      s.lab_data) ∧
    (∀ f, f ≠ test_name →
      dictGet
          (render_conflict_chip s test_name conflict choice).patient_data
          f =
        dictGet s.patient_data f) ∧
    (choice = "Use PDF value" →
      dictGet
          (render_conflict_chip s test_name conflict choice).patient_data
          test_name =
        some ((dictGet conflict "pdf_value").getD Value.none)) ∧
    (choice = "Keep form value" →
      render_conflict_chip s test_name conflict choice = s) := by
  rcases hch with hch | hch <;> subst hch
  · have hno : render_conflict_chip s test_name conflict
        "Keep form value" = s := by
      unfold render_conflict_chip
      rw [if_neg (by decide)]
    refine ⟨?_, ?_, ?_, ?_, ?_, fun _ => hno⟩
    · rw [hno, hno]
    · rw [hno]
    · rw [hno]
    · intro f _
      rw [hno]
    · intro h
      exact absurd h (by decide)
  · have hyes : render_conflict_chip s test_name conflict
        "Use PDF value" =
        { s with
          patient_data :=
            dictSet s.patient_data test_name
              ((dictGet conflict "pdf_value").getD Value.none) } := by
      unfold render_conflict_chip
      rw [if_pos rfl]
    refine ⟨?_, ?_, ?_, ?_, ?_, ?_⟩
    · rw [hyes]
      unfold render_conflict_chip
      rw [if_pos rfl]
      simp only [SessionState.mk.injEq, and_true, and_self]
      exact dictSet_dictSet_self _ _ _
    · rw [hyes]
    · rw [hyes]
    · intro f hf
      rw [hyes]
      exact dictGet_dictSet_ne _ _ _ _ hf
    · intro _
      rw [hyes]
      exact dictGet_dictSet_self _ _ _
    · intro h
      exact absurd h (by decide)

/-- C7 witness: resolving the concrete HbA1c conflict (8.2 vs 9.4) to
the PDF value twice equals resolving once; only `hba1c` is rewritten (to
9.4) and the conflict dict is unchanged. -/
theorem C7_resolve_idempotent_witness :
    (render_conflict_chip
        (render_conflict_chip exampleMerged "hba1c" exampleConflict
          "Use PDF value")
        "hba1c" exampleConflict "Use PDF value" =
      render_conflict_chip exampleMerged "hba1c" exampleConflict
        "Use PDF value") ∧
    ((render_conflict_chip exampleMerged "hba1c" exampleConflict
        "Use PDF value").conflicts = exampleMerged.conflicts) ∧
    dictGet (render_conflict_chip exampleMerged "hba1c" exampleConflict
        "Use PDF value").patient_data "hba1c" =
      some ((dictGet exampleConflict "pdf_value").getD Value.none) :=
  ⟨(C7_resolve_idempotent_but_resolution_not_recorded exampleMerged
      "hba1c" exampleConflict "Use PDF value" (Or.inr rfl)).1,
   (C7_resolve_idempotent_but_resolution_not_recorded exampleMerged
      "hba1c" exampleConflict "Use PDF value" (Or.inr rfl)).2.1,
   (C7_resolve_idempotent_but_resolution_not_recorded exampleMerged
      "hba1c" exampleConflict "Use PDF value" (Or.inr rfl)).2.2.2.2.1
     rfl⟩

/-- C7 counterexample: after resolving the HbA1c conflict to the PDF
value, the stored conflict record still has no `resolution` entry — the
chosen resolution is recorded nowhere, contrary to the claim that the
Conflict's resolution equals the chosen value afterwards. -/
theorem C7_counterexample_resolution_not_recorded :
    (render_conflict_chip exampleMerged "hba1c" exampleConflict
        "Use PDF value").conflicts =
      [("hba1c", exampleConflict)] ∧
    dictGet exampleConflict "resolution" ≠
      some (Value.str "use_document") ∧
    dictGet exampleConflict "resolution" = Option.none :=
  ⟨by decide, fun h => Option.noConfusion h, rfl⟩

/-- C8: when every field present in both sources carries equal values
(Python `==`), `process_pdf` records zero conflicts and the merged
snapshot is exactly the form snapshot (the form value is canonical). -/
theorem C8_agreement_yields_no_conflicts (s : SessionState)
    (lab : List (String × LabResult))
    (hagree : (lab.all fun p =>
      match dictGet s.patient_data p.1 with
      | some fv => pyEq fv p.2.value
      | Option.none => true) = true) :
    (process_pdf s lab).conflicts = [] ∧
    (process_pdf s lab).patient_data = s.patient_data := by
  refine ⟨?_, rfl⟩
  show detectConflicts s.patient_data lab = []
  unfold detectConflicts
  apply detect_foldl_agree
  intro p hp
  have h := List.all_eq_true.mp hagree p hp
  cases hm : dictGet s.patient_data p.1 with
  | none =>
      left
      rfl
  | some fv =>
      right
      rw [hm] at h
      exact h

/-- C8 witness: form and document agreeing on HbA1c 8.2 produce zero
conflicts and leave the form snapshot untouched. -/
theorem C8_agreement_witness :
    (process_pdf ⟨[("hba1c", Value.num (mkRat 41 5))], [], []⟩
        [("hba1c", ⟨Value.num (mkRat 41 5), some "%"⟩)]).conflicts =
      [] ∧
    (process_pdf ⟨[("hba1c", Value.num (mkRat 41 5))], [], []⟩
        [("hba1c", ⟨Value.num (mkRat 41 5), some "%"⟩)]).patient_data =
      [("hba1c", Value.num (mkRat 41 5))] :=
  C8_agreement_yields_no_conflicts
    ⟨[("hba1c", Value.num (mkRat 41 5))], [], []⟩
    [("hba1c", ⟨Value.num (mkRat 41 5), some "%"⟩)] (by decide)

/-- C10: a field whose form value is falsy (0, 0.0, empty string, False,
None — including an absent field, which `dict.get` reads as None) never
yields a Conflict, whatever the document value; conversely every
recorded Conflict stems from a truthy form value that differs (Python
`!=`) from the document value. -/
theorem C10_falsy_form_value_never_conflicts (s : SessionState)
    (lab : List (String × LabResult)) (f : String) :
    (pyTruthy ((dictGet s.patient_data f).getD Value.none) = false →
      dictGet (process_pdf s lab).conflicts f = Option.none) ∧
    (∀ c, dictGet (process_pdf s lab).conflicts f = some c →
      pyTruthy ((dictGet s.patient_data f).getD Value.none) = true ∧
      ∃ r : LabResult, (f, r) ∈ lab ∧
        pyEq ((dictGet s.patient_data f).getD Value.none) r.value =
          false) := by
  constructor
  · intro hq
    show dictGet (detectConflicts s.patient_data lab) f = Option.none
    unfold detectConflicts
    rw [detect_foldl_falsy s.patient_data lab [] f hq]
    rfl
  · intro c hc
    rcases detect_foldl_some s.patient_data lab [] f c hc with
      h | ⟨r, hr, hq, hne, _⟩
    · exact Option.noConfusion h
    · exact ⟨hq, r, hr, hne⟩

/-- C10 witness: a form HbA1c of 0 (falsy) produces no conflict even
though the document reports 9.4. -/
theorem C10_falsy_form_value_witness :
    pyTruthy ((dictGet [("hba1c", Value.num 0)] "hba1c").getD
      Value.none) = false ∧
    dictGet (process_pdf ⟨[("hba1c", Value.num 0)], [], []⟩
        [("hba1c", ⟨Value.num (mkRat 47 5), some "%"⟩)]).conflicts
        "hba1c" = Option.none :=
  ⟨by decide,
   (C10_falsy_form_value_never_conflicts
      ⟨[("hba1c", Value.num 0)], [], []⟩
      [("hba1c", ⟨Value.num (mkRat 47 5), some "%"⟩)] "hba1c").1
     (by decide)⟩
